import Mathlib

/-!
Verification of the vehicle lateral-dynamics model
(`selfdrive/controls/lib/vehicle_model.py`).

The Python floats are modelled by exact rationals (`ℚ`); every arithmetic
operation of the source is translated literally.  Division by zero, which in
Python raises or produces `inf`, is the total `ℚ` division (yielding `0`);
theorems about the division-heavy paths therefore carry the nonzeroness
hypotheses under which the Python code actually computes a value.  The single
irrational operation of the source, the real power `(dx^2 + dy^2) ** 1.5`
inside the baseline-curvature formula, is abstracted as an explicit function
parameter `pow32 : ℚ → ℚ`; no claim depends on its value.
-/

/-- Gravity constant of the source, `ACCELERATION_DUE_TO_GRAVITY = 9.8`. -/
def ACCELERATION_DUE_TO_GRAVITY : ℚ := 9.8

/-- Segment length of the 3-DoF fusion loop, `SEGMENT_LENGTH_3DOF = 5`. -/
def SEGMENT_LENGTH_3DOF : ℕ := 5

/-- Blend coefficient of the fusion loop, `CURVATURE_CORR_ALPHA_3DOF = 0.5`. -/
def CURVATURE_CORR_ALPHA_3DOF : ℚ := 0.5

/-- The immutable car-parameter record consumed by `VehicleModel.__init__`
(only the fields the constructor reads). -/
structure CarParams where
  mass : ℚ
  rotationalInertia : ℚ
  wheelbase : ℚ
  centerToFront : ℚ
  steerRatioRear : ℚ
  tireStiffnessFront : ℚ
  tireStiffnessRear : ℚ
  steerRatio : ℚ

/-- The mutable state of a `VehicleModel` object: the geometry and mass
constants fixed by the constructor, plus the recalibrated `cF`, `cR`, `sR`. -/
structure VehicleModel where
  m : ℚ
  j : ℚ
  l : ℚ
  aF : ℚ
  aR : ℚ
  chi : ℚ
  cF_orig : ℚ
  cR_orig : ℚ
  cF : ℚ
  cR : ℚ
  sR : ℚ

/-- `VehicleModel.update_params`: overwrite `cF`, `cR`, `sR` from a stiffness
factor and a steer ratio, leaving every other field unchanged. -/
def VehicleModel.update_params (VM : VehicleModel) (stiffness_factor steer_ratio : ℚ) :
    VehicleModel :=
  { VM with
    cF := stiffness_factor * VM.cF_orig
    cR := stiffness_factor * VM.cR_orig
    sR := steer_ratio }

/-- `VehicleModel.__init__`: copy the car parameters into short names and run
`update_params(1.0, CP.steerRatio)`.  The Python object has no `cF`/`cR`/`sR`
before that call; the placeholders `0` here are immediately overwritten. -/
def VehicleModel.init (CP : CarParams) : VehicleModel :=
  VehicleModel.update_params
    { m := CP.mass
      j := CP.rotationalInertia
      l := CP.wheelbase
      aF := CP.centerToFront
      aR := CP.wheelbase - CP.centerToFront
      chi := CP.steerRatioRear
      cF_orig := CP.tireStiffnessFront
      cR_orig := CP.tireStiffnessRear
      cF := 0
      cR := 0
      sR := 0 }
    1 CP.steerRatio

/-- The states a `VehicleModel` object can be in: freshly constructed, or the
result of any sequence of `update_params` calls. -/
inductive VehicleModel.Reachable : VehicleModel → Prop
  | init (CP : CarParams) : VehicleModel.Reachable (VehicleModel.init CP)
  | update (VM : VehicleModel) (stiffness_factor steer_ratio : ℚ) :
      VehicleModel.Reachable VM →
      VehicleModel.Reachable (VM.update_params stiffness_factor steer_ratio)

/-- `calc_slip_factor(VM) = VM.m * (VM.cF * VM.aF - VM.cR * VM.aR) / (VM.l**2 * VM.cF * VM.cR)`. -/
def calc_slip_factor (VM : VehicleModel) : ℚ :=
  VM.m * (VM.cF * VM.aF - VM.cR * VM.aR) / (VM.l ^ 2 * VM.cF * VM.cR)

/-- `VehicleModel.curvature_factor`: `(1. - chi) / (1. - sf * u**2) / l`. -/
def VehicleModel.curvature_factor (VM : VehicleModel) (u : ℚ) : ℚ :=
  (1 - VM.chi) / (1 - calc_slip_factor VM * u ^ 2) / VM.l

/-- `VehicleModel.roll_compensation`: `0` when `abs(sf) < 1e-6`, else
`(ACCELERATION_DUE_TO_GRAVITY * roll) / ((1 / sf) - u**2)`. -/
def VehicleModel.roll_compensation (VM : VehicleModel) (roll u : ℚ) : ℚ :=
  if |calc_slip_factor VM| < 1e-6 then 0
  else (ACCELERATION_DUE_TO_GRAVITY * roll) / (1 / calc_slip_factor VM - u ^ 2)

/-- `VehicleModel.calc_curvature`: `curvature_factor(u) * sa / sR + roll_compensation(roll, u)`. -/
def VehicleModel.calc_curvature (VM : VehicleModel) (sa u roll : ℚ) : ℚ :=
  VM.curvature_factor u * sa / VM.sR + VM.roll_compensation roll u

/-- `VehicleModel.get_steer_from_curvature`:
`(curv - roll_compensation(roll, u)) * sR * 1.0 / curvature_factor(u)`. -/
def VehicleModel.get_steer_from_curvature (VM : VehicleModel) (curv u roll : ℚ) : ℚ :=
  (curv - VM.roll_compensation roll u) * VM.sR * 1 / VM.curvature_factor u

/-- A 2x2 matrix with rational entries, as built by `np.zeros((2, 2))` plus
entry assignments. -/
structure Mat2 where
  m00 : ℚ
  m01 : ℚ
  m10 : ℚ
  m11 : ℚ

/-- Determinant of a 2x2 matrix. -/
def Mat2.det (A : Mat2) : ℚ := A.m00 * A.m11 - A.m01 * A.m10

/-- Inverse of a 2x2 matrix (junk when the determinant is zero; only ever
used under a nonzero-determinant guard, mirroring `numpy.linalg.solve`). -/
def Mat2.inv (A : Mat2) : Mat2 :=
  { m00 := A.m11 / A.det
    m01 := -A.m01 / A.det
    m10 := -A.m10 / A.det
    m11 := A.m00 / A.det }

/-- Product of two 2x2 matrices. -/
def Mat2.mul (A B : Mat2) : Mat2 :=
  { m00 := A.m00 * B.m00 + A.m01 * B.m10
    m01 := A.m00 * B.m01 + A.m01 * B.m11
    m10 := A.m10 * B.m00 + A.m11 * B.m10
    m11 := A.m10 * B.m01 + A.m11 * B.m11 }

/-- A 2x2 matrix applied to a column vector. -/
def Mat2.mulVec (A : Mat2) (x : ℚ × ℚ) : ℚ × ℚ :=
  (A.m00 * x.1 + A.m01 * x.2, A.m10 * x.1 + A.m11 * x.2)

/-- `create_dyn_state_matrices(u, VM)`: the 2-state A and B matrices. -/
def create_dyn_state_matrices (u : ℚ) (VM : VehicleModel) : Mat2 × Mat2 :=
  ({ m00 := -(VM.cF + VM.cR) / (VM.m * u)
     m01 := -(VM.cF * VM.aF - VM.cR * VM.aR) / (VM.m * u) - u
     m10 := -(VM.cF * VM.aF - VM.cR * VM.aR) / (VM.j * u)
     m11 := -(VM.cF * VM.aF ^ 2 + VM.cR * VM.aR ^ 2) / (VM.j * u) },
   { m00 := (VM.cF + VM.chi * VM.cR) / VM.m / VM.sR
     m01 := -ACCELERATION_DUE_TO_GRAVITY
     m10 := (VM.cF * VM.aF - VM.chi * VM.cR * VM.aR) / VM.j / VM.sR
     m11 := 0 })

/-- `dyn_ss_sol(sa, u, roll, VM)`: `-solve(A, B) @ [[sa], [roll]]`.
`numpy.linalg.solve(A, B)` computes the 2x2 matrix `A⁻¹ B` and raises a
singular-matrix error exactly when `A` is not invertible; the raise is
modelled by `none`. -/
def dyn_ss_sol (sa u roll : ℚ) (VM : VehicleModel) : Option (ℚ × ℚ) :=
  let AB := create_dyn_state_matrices u VM
  if AB.1.det = 0 then none
  else some (-((AB.1.inv.mul AB.2).mulVec (sa, roll)))

/-- `kin_ss_sol(sa, u, VM)`: `K[0,0] = aR / sR / l * u`, `K[1,0] = 1. / sR / l * u`,
returned as `K * sa`. -/
def kin_ss_sol (sa u : ℚ) (VM : VehicleModel) : ℚ × ℚ :=
  (VM.aR / VM.sR / VM.l * u * sa, 1 / VM.sR / VM.l * u * sa)

/-- `VehicleModel.steady_state_sol`: dynamic solution when `u > 0.1`, else the
kinematic solution (which never raises, hence always `some`). -/
def VehicleModel.steady_state_sol (VM : VehicleModel) (sa u roll : ℚ) : Option (ℚ × ℚ) :=
  if 1 / 10 < u then dyn_ss_sol sa u roll VM
  else some (kin_ss_sol sa u VM)

/-- A 3x3 matrix with rational entries. -/
structure Mat3 where
  m00 : ℚ
  m01 : ℚ
  m02 : ℚ
  m10 : ℚ
  m11 : ℚ
  m12 : ℚ
  m20 : ℚ
  m21 : ℚ
  m22 : ℚ

/-- A 3x2 matrix with rational entries. -/
structure Mat32 where
  m00 : ℚ
  m01 : ℚ
  m10 : ℚ
  m11 : ℚ
  m20 : ℚ
  m21 : ℚ

/-- A 3x3 matrix applied to a column vector. -/
def Mat3.mulVec (A : Mat3) (x : ℚ × ℚ × ℚ) : ℚ × ℚ × ℚ :=
  (A.m00 * x.1 + A.m01 * x.2.1 + A.m02 * x.2.2,
   A.m10 * x.1 + A.m11 * x.2.1 + A.m12 * x.2.2,
   A.m20 * x.1 + A.m21 * x.2.1 + A.m22 * x.2.2)

/-- A 3x2 matrix applied to a 2-component column vector. -/
def Mat32.mulVec (B : Mat32) (w : ℚ × ℚ) : ℚ × ℚ × ℚ :=
  (B.m00 * w.1 + B.m01 * w.2,
   B.m10 * w.1 + B.m11 * w.2,
   B.m20 * w.1 + B.m21 * w.2)

/-- `create_dyn_state_matrices_3dof(u, v, yaw_rate, VM)`: the 3-state A and B
matrices.  As in the source, `v` and `yaw_rate` are accepted but unused. -/
def create_dyn_state_matrices_3dof (u v yaw_rate : ℚ) (VM : VehicleModel) :
    Mat3 × Mat32 :=
  ({ m00 := 0
     m01 := 0
     m02 := 0
     m10 := 0
     m11 := -(VM.cF + VM.cR) / (VM.m * u)
     m12 := -u - (VM.cF * VM.aF - VM.cR * VM.aR) / (VM.m * u)
     m20 := 0
     m21 := -(VM.cF * VM.aF - VM.cR * VM.aR) / (VM.j * u)
     m22 := -(VM.cF * VM.aF ^ 2 + VM.cR * VM.aR ^ 2) / (VM.j * u) },
   { m00 := 0
     m01 := 1
     m10 := VM.cF / (VM.m * VM.sR)
     m11 := 0
     m20 := VM.cF * VM.aF / (VM.j * VM.sR)
     m21 := 0 })

/-- `np.gradient(f, t)` with default `edge_order=1`: first-order one-sided
differences at the two ends, and the second-order weighted central difference
(valid for non-uniform spacing) at interior points.  Out-of-range accesses,
impossible in the source's use (length-5 segments), default to `0`. -/
def npGradient (f t : List ℚ) : List ℚ :=
  (List.range f.length).map (fun i =>
    if i = 0 then
      (f.getD 1 0 - f.getD 0 0) / (t.getD 1 0 - t.getD 0 0)
    else if i = f.length - 1 then
      (f.getD i 0 - f.getD (i - 1) 0) / (t.getD i 0 - t.getD (i - 1) 0)
    else
      (let hs := t.getD i 0 - t.getD (i - 1) 0
       let hd := t.getD (i + 1) 0 - t.getD i 0
       (hs ^ 2 * f.getD (i + 1) 0 + (hd ^ 2 - hs ^ 2) * f.getD i 0
          - hd ^ 2 * f.getD (i - 1) 0) / (hs * hd * (hd + hs))))

/-- The index list produced by Python's `range(start, stop, SEGMENT_LENGTH_3DOF)`:
starting at `start`, while below `stop`, stepping by 5. -/
def segmentStartsAux (stop start : ℕ) : List ℕ :=
  if h : start < stop then start :: segmentStartsAux stop (start + SEGMENT_LENGTH_3DOF)
  else []
termination_by stop - start
decreasing_by simp [SEGMENT_LENGTH_3DOF]; omega

/-- The segment start indices walked by `calc_curvature_3dof` for `n` position
samples: `range(0, range_end, SEGMENT_LENGTH_3DOF)` with
`range_end = n - SEGMENT_LENGTH_3DOF`. -/
def segmentStarts (n : ℕ) : List ℕ :=
  segmentStartsAux (n - SEGMENT_LENGTH_3DOF) 0

/-- The time-windowing loop of `calc_curvature_3dof` (its state is the pair of
the running index `i` and `total_time`): break as soon as `total_time` has
reached `time_horizon`; otherwise, when `i < len(times) - 1`, accumulate
`times[i+1] - times[i]` and collect the value. -/
def relevantLoop (times : List ℚ) (time_horizon : ℚ) :
    ℕ → ℚ → List ℚ → List ℚ
  | _, _, [] => []
  | i, total_time, c :: rest =>
    if time_horizon ≤ total_time then []
    else if i + 1 < times.length then
      c :: relevantLoop times time_horizon (i + 1)
        (total_time + (times.getD (i + 1) 0 - times.getD i 0)) rest
    else
      relevantLoop times time_horizon (i + 1) total_time rest

/-- The `relevant_curvatures` list of `calc_curvature_3dof`: the windowing
loop started at index `0` with `total_time = 0.0`. -/
def relevantCurvatures (times : List ℚ) (time_horizon : ℚ) (combined : List ℚ) :
    List ℚ :=
  relevantLoop times time_horizon 0 0 combined

/-- The sum of the deltas `times[i+j+1] - times[i+j]` for `j < k`: the time the
windowing loop accumulates over `k` steps starting at index `i`. -/
def accTimeFrom (times : List ℚ) : ℕ → ℕ → ℚ
  | _, 0 => 0
  | i, k + 1 => (times.getD (i + 1) 0 - times.getD i 0) + accTimeFrom times (i + 1) k

/-- `VehicleModel.calc_curvature_3dof`.  The trajectory container `modelV2` is
passed as its three read fields `position.x`, `position.y`, `position.t`;
`pow32` stands for the real power `(.) ** 1.5`; `np.nanmean` over a segment is
the arithmetic mean (exact rational arithmetic produces no NaN); `t_segment[-1]`
is the last element of the segment. -/
def VehicleModel.calc_curvature_3dof (VM : VehicleModel) (pow32 : ℚ → ℚ)
    (positions_x positions_y times : List ℚ)
    (a_y a_x yaw_rate u_measured sa time_horizon : ℚ) : ℚ :=
  if positions_x.length < SEGMENT_LENGTH_3DOF ∨ positions_y.length < SEGMENT_LENGTH_3DOF then
    0
  else
    let pairs := (segmentStarts positions_x.length).map (fun i =>
      let x_segment := (positions_x.drop i).take SEGMENT_LENGTH_3DOF
      let y_segment := (positions_y.drop i).take SEGMENT_LENGTH_3DOF
      let t_segment := (times.drop i).take SEGMENT_LENGTH_3DOF
      let dx := npGradient x_segment t_segment
      let dy := npGradient y_segment t_segment
      let ddx := npGradient dx t_segment
      let ddy := npGradient dy t_segment
      let curvature_pointwise := (List.range x_segment.length).map (fun k =>
        |ddx.getD k 0 * dy.getD k 0 - ddy.getD k 0 * dx.getD k 0|
          / pow32 ((dx.getD k 0) ^ 2 + (dy.getD k 0) ^ 2))
      let curvature_baseline := curvature_pointwise.sum / (curvature_pointwise.length : ℚ)
      let u := if 1 / 10 < u_measured then u_measured else dx.getD 0 0
      let v := if 1 / 10 < u then a_y / u else 0
      let AB := create_dyn_state_matrices_3dof u v yaw_rate VM
      let state : ℚ × ℚ × ℚ := (u, v, yaw_rate)
      let delta_t := t_segment.getD (t_segment.length - 1) 0 - t_segment.getD 0 0
      let Ax := AB.1.mulVec state
      let Bu := AB.2.mulVec (sa, a_x)
      let x_dot : ℚ × ℚ × ℚ := (Ax.1 + Bu.1, Ax.2.1 + Bu.2.1, Ax.2.2 + Bu.2.2)
      let state2 : ℚ × ℚ × ℚ :=
        (state.1 + x_dot.1 * delta_t, state.2.1 + x_dot.2.1 * delta_t,
         state.2.2 + x_dot.2.2 * delta_t)
      let curvature_3dof := if 1 / 10 < state2.1 then state2.2.2 / state2.1 else 0
      (curvature_baseline, curvature_3dof))
    let combined_curvatures :=
      pairs.map (fun p => p.1 + CURVATURE_CORR_ALPHA_3DOF * (p.1 - p.2))
    let relevant_curvatures := relevantCurvatures times time_horizon combined_curvatures
    if relevant_curvatures.isEmpty then 0
    else relevant_curvatures.sum / (relevant_curvatures.length : ℚ)

/-- A concrete car-parameter record (mass 1500, inertia 2500, wheelbase 2.7,
center-to-front 1.35, rear steer ratio 0, tire stiffness 80000/80000, steer
ratio 15), used to instantiate hypotheses of the theorems below. -/
def sampleCarParams : CarParams :=
  { mass := 1500
    rotationalInertia := 2500
    wheelbase := 27 / 10
    centerToFront := 135 / 100
    steerRatioRear := 0
    tireStiffnessFront := 80000
    tireStiffnessRear := 80000
    steerRatio := 15 }

/-- The vehicle model constructed from `sampleCarParams`. -/
def sampleModel : VehicleModel := VehicleModel.init sampleCarParams

/-- C6: `update_params(stiffness_factor, steer_ratio)` sets
`cF = stiffness_factor * cF_orig`, `cR = stiffness_factor * cR_orig`,
`sR = steer_ratio` — with no validation, for every rational argument including
zero and negative ones — and leaves `m`, `j`, `l`, `aF`, `aR`, `chi`,
`cF_orig`, `cR_orig` unchanged. -/
theorem update_params_effect (VM : VehicleModel) (stiffness_factor steer_ratio : ℚ) :
    (VM.update_params stiffness_factor steer_ratio).cF = stiffness_factor * VM.cF_orig ∧
    (VM.update_params stiffness_factor steer_ratio).cR = stiffness_factor * VM.cR_orig ∧
    (VM.update_params stiffness_factor steer_ratio).sR = steer_ratio ∧
    (VM.update_params stiffness_factor steer_ratio).m = VM.m ∧
    (VM.update_params stiffness_factor steer_ratio).j = VM.j ∧
    (VM.update_params stiffness_factor steer_ratio).l = VM.l ∧
    (VM.update_params stiffness_factor steer_ratio).aF = VM.aF ∧
    (VM.update_params stiffness_factor steer_ratio).aR = VM.aR ∧
    (VM.update_params stiffness_factor steer_ratio).chi = VM.chi ∧
    (VM.update_params stiffness_factor steer_ratio).cF_orig = VM.cF_orig ∧
    (VM.update_params stiffness_factor steer_ratio).cR_orig = VM.cR_orig :=
  ⟨rfl, rfl, rfl, rfl, rfl, rfl, rfl, rfl, rfl, rfl, rfl⟩

/-- C7: for every roll and speed, `roll_compensation(roll, u)` is `0` when
the absolute slip factor is below `1e-6`, and otherwise equals
`(9.8 * roll) / ((1 / slip_factor) - u^2)`, where the slip factor is
`m * (cF * aF - cR * aR) / (l^2 * cF * cR)`. -/
theorem roll_compensation_formula (VM : VehicleModel) (roll u : ℚ) :
    VM.roll_compensation roll u =
      if |VM.m * (VM.cF * VM.aF - VM.cR * VM.aR) / (VM.l ^ 2 * VM.cF * VM.cR)| < 1e-6
      then 0
      else (9.8 * roll) /
        (1 / (VM.m * (VM.cF * VM.aF - VM.cR * VM.aR) / (VM.l ^ 2 * VM.cF * VM.cR)) - u ^ 2) :=
  rfl

/-- C9: at exactly zero speed the steady-state solution is exactly `[0, 0]`
for every steering angle and roll: the kinematic branch is taken and both of
its components carry the factor `u = 0`. -/
theorem steady_state_sol_zero_speed (VM : VehicleModel) (sa roll : ℚ) :
    VM.steady_state_sol sa 0 roll = some (0, 0) := by
  norm_num [VehicleModel.steady_state_sol, kin_ss_sol]

/-- C5: for every speed at or below the threshold `0.1`, `steady_state_sol`
takes the kinematic branch and returns exactly
`(aR / (sR * l) * u * sa, 1 / (sR * l) * u * sa)` — an expression free of the
roll input and of the tire stiffnesses `cF`, `cR`. -/
theorem steady_state_sol_kinematic (VM : VehicleModel) (sa u roll : ℚ)
    (hu : u ≤ 1 / 10) :
    VM.steady_state_sol sa u roll =
      some (VM.aR / (VM.sR * VM.l) * u * sa, 1 / (VM.sR * VM.l) * u * sa) := by
  rw [VehicleModel.steady_state_sol, if_neg (not_lt.mpr hu)]
  simp only [kin_ss_sol, div_div]

/-- Witness for C5 at the concrete model and inputs `sa = 2`, `u = 1/20`,
`roll = 7`. -/
theorem steady_state_sol_kinematic_witness :
    ((1 : ℚ) / 20 ≤ 1 / 10) ∧
    sampleModel.steady_state_sol 2 (1 / 20) 7
      = some (sampleModel.aR / (sampleModel.sR * sampleModel.l) * (1 / 20) * 2,
              1 / (sampleModel.sR * sampleModel.l) * (1 / 20) * 2) :=
  ⟨by norm_num, steady_state_sol_kinematic sampleModel 2 (1 / 20) 7 (by norm_num)⟩

/-- C3: whenever the curvature factor is nonzero (which forces its
denominators to be nonzero) and the steer ratio is nonzero,
`get_steer_from_curvature` is the exact algebraic inverse of
`calc_curvature`. -/
theorem calc_curvature_inverse (VM : VehicleModel) (curv u roll : ℚ)
    (hsR : VM.sR ≠ 0) (hcf : VM.curvature_factor u ≠ 0) :
    VM.calc_curvature (VM.get_steer_from_curvature curv u roll) u roll = curv := by
  unfold VehicleModel.calc_curvature VehicleModel.get_steer_from_curvature
  field_simp

/-- Witness for C3 at the concrete model, `curv = 1/100`, `u = 20`,
`roll = 1/50`. -/
theorem calc_curvature_inverse_witness :
    (sampleModel.sR ≠ 0 ∧ sampleModel.curvature_factor 20 ≠ 0) ∧
    sampleModel.calc_curvature (sampleModel.get_steer_from_curvature (1 / 100) 20 (1 / 50)) 20 (1 / 50)
      = 1 / 100 := by
  have hsr : sampleModel.sR ≠ 0 := by
    norm_num [sampleModel, sampleCarParams, VehicleModel.init, VehicleModel.update_params]
  have hcf : sampleModel.curvature_factor 20 ≠ 0 := by
    norm_num [sampleModel, sampleCarParams, VehicleModel.init, VehicleModel.update_params,
      VehicleModel.curvature_factor, calc_slip_factor]
  exact ⟨⟨hsr, hcf⟩, calc_curvature_inverse sampleModel (1 / 100) 20 (1 / 50) hsr hcf⟩

/-- C10: every reachable model state satisfies
`cF * cR_orig = cR * cF_orig`: the constructor establishes it via
`update_params(1.0, CP.steerRatio)` and every `update_params` call preserves
it, scaling both stiffnesses by the same factor. -/
theorem stiffness_invariant (VM : VehicleModel) (h : VM.Reachable) :
    VM.cF * VM.cR_orig = VM.cR * VM.cF_orig := by
  induction h with
  | init CP => simp [VehicleModel.init, VehicleModel.update_params, mul_comm]
  | update VM stiffness_factor steer_ratio hR ih =>
      simp only [VehicleModel.update_params]
      ring

/-- Witness for C10: the freshly constructed concrete model is reachable and
satisfies the invariant. -/
theorem stiffness_invariant_witness :
    (VehicleModel.init sampleCarParams).Reachable ∧
    (VehicleModel.init sampleCarParams).cF * (VehicleModel.init sampleCarParams).cR_orig
      = (VehicleModel.init sampleCarParams).cR * (VehicleModel.init sampleCarParams).cF_orig :=
  ⟨VehicleModel.Reachable.init sampleCarParams,
   stiffness_invariant _ (VehicleModel.Reachable.init sampleCarParams)⟩

/-- Applying a 2x2 matrix with nonzero determinant to the negated
inverse-times-B solution recovers the negated right-hand side: the correctness
of the exact 2x2 linear solve `x = -(A⁻¹ B) w`, stated over arbitrary
entries. -/
theorem Mat2.solve_mulVec (A B : Mat2) (w : ℚ × ℚ) (hdet : A.det ≠ 0) :
    A.mulVec (-((A.inv.mul B).mulVec w)) = -(B.mulVec w) := by
  obtain ⟨a00, a01, a10, a11⟩ := A
  obtain ⟨b00, b01, b10, b11⟩ := B
  obtain ⟨w1, w2⟩ := w
  simp only [Mat2.det] at hdet
  simp only [Mat2.inv, Mat2.mul, Mat2.mulVec, Mat2.det, Prod.neg_mk, Prod.mk.injEq]
  constructor <;> field_simp <;> ring

/-- C4: above the speed threshold, `steady_state_sol` builds the 2-state
matrices A, B at speed `u` and (1) fails exactly when A is singular, (2) any
returned vector `x = (v, r)` satisfies `A x = -B (sa, roll)`, and (3) with
zero steering and zero roll the returned solution is exactly `(0, 0)`.  The
nonzeroness of `m`, `j` and `sR` is assumed so that the Python code builds
the matrices without a division-by-zero error. -/
theorem steady_state_sol_dynamic (VM : VehicleModel) (sa u roll : ℚ)
    (hu : 1 / 10 < u) (hm : VM.m ≠ 0) (hj : VM.j ≠ 0) (hsR : VM.sR ≠ 0) :
    (VM.steady_state_sol sa u roll = none ↔ (create_dyn_state_matrices u VM).1.det = 0) ∧
    (∀ x, VM.steady_state_sol sa u roll = some x →
      (create_dyn_state_matrices u VM).1.mulVec x
        = -((create_dyn_state_matrices u VM).2.mulVec (sa, roll))) ∧
    ((create_dyn_state_matrices u VM).1.det ≠ 0 →
      VM.steady_state_sol 0 u 0 = some (0, 0)) := by
  simp only [VehicleModel.steady_state_sol, if_pos hu, dyn_ss_sol]
  refine ⟨?_, ?_, ?_⟩
  · by_cases hd : (create_dyn_state_matrices u VM).1.det = 0
    · simp [hd]
    · simp [hd]
  · intro x hx
    by_cases hd : (create_dyn_state_matrices u VM).1.det = 0
    · simp [hd] at hx
    · simp only [if_neg hd, Option.some.injEq] at hx
      rw [← hx]
      exact Mat2.solve_mulVec _ _ _ hd
  · intro hd
    simp [if_neg hd, Mat2.mulVec]

/-- Witness for C4 at the concrete model and inputs `sa = 1/10`, `u = 20`,
`roll = 1/100`. -/
theorem steady_state_sol_dynamic_witness :
    ((1 : ℚ) / 10 < 20 ∧ sampleModel.m ≠ 0 ∧ sampleModel.j ≠ 0 ∧ sampleModel.sR ≠ 0) ∧
    ((sampleModel.steady_state_sol (1 / 10) 20 (1 / 100) = none ↔
        (create_dyn_state_matrices 20 sampleModel).1.det = 0) ∧
     (∀ x, sampleModel.steady_state_sol (1 / 10) 20 (1 / 100) = some x →
        (create_dyn_state_matrices 20 sampleModel).1.mulVec x
          = -((create_dyn_state_matrices 20 sampleModel).2.mulVec (1 / 10, 1 / 100))) ∧
     ((create_dyn_state_matrices 20 sampleModel).1.det ≠ 0 →
        sampleModel.steady_state_sol 0 20 0 = some (0, 0))) := by
  have hm : sampleModel.m ≠ 0 := by
    norm_num [sampleModel, sampleCarParams, VehicleModel.init, VehicleModel.update_params]
  have hj : sampleModel.j ≠ 0 := by
    norm_num [sampleModel, sampleCarParams, VehicleModel.init, VehicleModel.update_params]
  have hsR : sampleModel.sR ≠ 0 := by
    norm_num [sampleModel, sampleCarParams, VehicleModel.init, VehicleModel.update_params]
  exact ⟨⟨by norm_num, hm, hj, hsR⟩,
    steady_state_sol_dynamic sampleModel (1 / 10) 20 (1 / 100) (by norm_num) hm hj hsR⟩

/-- Closed form of the segment-start loop: starting at `start` with upper
bound `start + m` it visits `start, start + 5, ...`, taking ceil(m / 5)
steps. -/
theorem segmentStartsAux_closed (m : ℕ) :
    ∀ start : ℕ, segmentStartsAux (start + m) start
      = (List.range ((m + 4) / 5)).map (fun k => start + 5 * k) := by
  induction m using Nat.strong_induction_on with
  | _ m ih =>
    intro start
    rw [segmentStartsAux]
    by_cases h : start < start + m
    · rw [dif_pos h]
      simp only [SEGMENT_LENGTH_3DOF]
      by_cases h5 : m ≤ 5
      · rw [segmentStartsAux]
        rw [dif_neg (by omega)]
        have hq : (m + 4) / 5 = 1 := by omega
        rw [hq]
        rfl
      · have hm : start + m = (start + 5) + (m - 5) := by omega
        rw [hm, ih (m - 5) (by omega) (start + 5)]
        have hq : m + 4 = (m - 5 + 4) + 5 := by omega
        rw [hq, Nat.add_div_right _ (by norm_num), List.range_succ_eq_map]
        simp only [List.map_cons, List.map_map, Nat.mul_zero, Nat.add_zero]
        have hf : ((fun k => start + 5 * k) ∘ Nat.succ) = fun k => start + 5 + 5 * k := by
          funext k
          simp only [Function.comp_apply, Nat.succ_eq_add_one]
          omega
        rw [hf]
    · rw [dif_neg h]
      have hm : m = 0 := by omega
      subst hm
      rfl

/-- C1 (counterexample): a trajectory with exactly 5 samples yields zero
processed segments, not the one segment (= floor(5 / 5)) the claim states:
the loop bound is `len - SEGMENT_LENGTH_3DOF`, so it stops while exactly 5
samples remain. -/
theorem segment_partition_counterexample : (segmentStarts 5).length ≠ 5 / 5 := by
  have h5 : segmentStarts 5 = [] := by
    rw [segmentStarts, segmentStartsAux]
    simp [SEGMENT_LENGTH_3DOF]
  rw [h5]
  norm_num

/-- C1 (amended): for every trajectory length `n ≥ 5`, the fusion loop walks
consecutive non-overlapping segment starts `0, 5, 10, ...`, but iterates only
while the start is below `n - 5`; hence exactly ceil((n - 5) / 5)
= floor((n - 1) / 5) segments are processed — one fewer than floor(n / 5)
whenever `n` is a multiple of 5, and in particular zero segments for a
trajectory of exactly 5 samples. -/
theorem segment_partition_amended (n : ℕ) (h : 5 ≤ n) :
    segmentStarts n = (List.range ((n - 1) / 5)).map (fun k => 5 * k) := by
  rw [segmentStarts]
  simp only [SEGMENT_LENGTH_3DOF]
  have h0 : n - 5 = 0 + (n - 5) := by omega
  rw [h0, segmentStartsAux_closed (n - 5) 0]
  have hq : n - 5 + 4 = n - 1 := by omega
  rw [hq]
  simp only [Nat.zero_add]

/-- Witness for C1 (amended) at `n = 17`: the processed segment starts are
`[0, 5, 10]`. -/
theorem segment_partition_amended_witness :
    5 ≤ 17 ∧ segmentStarts 17 = (List.range ((17 - 1) / 5)).map (fun k => 5 * k) :=
  ⟨by norm_num, segment_partition_amended 17 (by norm_num)⟩

/-- C8: with fewer than 5 position samples in x or in y, `calc_curvature_3dof`
returns exactly `0`, for every value of the measured inputs (so in particular
without depending on them) and for every time list. -/
theorem calc_curvature_3dof_short_input (VM : VehicleModel) (pow32 : ℚ → ℚ)
    (positions_x positions_y times : List ℚ)
    (a_y a_x yaw_rate u_measured sa time_horizon : ℚ)
    (h : positions_x.length < 5 ∨ positions_y.length < 5) :
    VM.calc_curvature_3dof pow32 positions_x positions_y times
      a_y a_x yaw_rate u_measured sa time_horizon = 0 := by
  have h5 : positions_x.length < SEGMENT_LENGTH_3DOF ∨
      positions_y.length < SEGMENT_LENGTH_3DOF := by
    simpa [SEGMENT_LENGTH_3DOF] using h
  rw [VehicleModel.calc_curvature_3dof, if_pos h5]

/-- Witness for C8: a 2-sample x list (and empty y list) yields `0` at
arbitrary measured inputs. -/
theorem calc_curvature_3dof_short_input_witness :
    ([(1 : ℚ), 2].length < 5 ∨ ([] : List ℚ).length < 5) ∧
    sampleModel.calc_curvature_3dof (fun q => q) [1, 2] [] [0, 1] 1 2 3 4 5 2 = 0 :=
  ⟨by norm_num, calc_curvature_3dof_short_input sampleModel (fun q => q)
    [1, 2] [] [0, 1] 1 2 3 4 5 2 (by norm_num)⟩

/-- Characterization of the windowing loop started at index `i` with
accumulator `total`: as long as every visited index satisfies the
`i < len(times) - 1` guard, the loop returns exactly the values whose
accumulated time on entry is still below the horizon. -/
theorem relevantLoop_takeWhile (times : List ℚ) (horizon : ℚ) :
    ∀ (cs : List ℚ) (i : ℕ) (total : ℚ), i + cs.length < times.length →
      relevantLoop times horizon i total cs
        = ((List.range cs.length).takeWhile
            (fun k => decide (total + accTimeFrom times i k < horizon))).map
            (fun k => cs.getD k 0) := by
  intro cs
  induction cs with
  | nil =>
    intro i total h
    rfl
  | cons c rest ih =>
    intro i total h
    simp only [List.length_cons] at h
    simp only [relevantLoop, List.length_cons]
    by_cases hge : horizon ≤ total
    · rw [if_pos hge, List.range_succ_eq_map, List.takeWhile_cons]
      have hp : (decide (total + accTimeFrom times i 0 < horizon)) = false := by
        simp only [accTimeFrom, add_zero]
        exact decide_eq_false (not_lt.mpr hge)
      rw [hp]
      simp
    · rw [if_neg hge, if_pos (by omega)]
      rw [ih (i + 1) (total + (times.getD (i + 1) 0 - times.getD i 0)) (by omega)]
      rw [List.range_succ_eq_map, List.takeWhile_cons]
      have hp : (decide (total + accTimeFrom times i 0 < horizon)) = true := by
        simp only [accTimeFrom, add_zero]
        exact decide_eq_true (not_le.mp hge)
      rw [hp]
      simp only [if_true, List.map_cons, List.takeWhile_map, List.map_map]
      have hpred : ((fun k => decide (total + accTimeFrom times i k < horizon)) ∘ Nat.succ)
          = fun k => decide (total + (times.getD (i + 1) 0 - times.getD i 0)
              + accTimeFrom times (i + 1) k < horizon) := by
        funext k
        simp only [Function.comp_apply, accTimeFrom]
        rw [add_assoc]
      have hfun : ((fun k => (c :: rest).getD k 0) ∘ Nat.succ)
          = fun k => rest.getD k 0 := by
        funext k
        rfl
      rw [hpred, hfun]
      rfl

/-- C2: provided the corrected-value list is shorter than the time list (true
for every list the fusion function feeds it, since at most one corrected
value exists per 5 samples), the time-windowing loop collects the corrected
values in order, and the value at index `i` is collected exactly when the
time accumulated over the deltas `times[j+1] - times[j]`, `j < i`, is still
below the horizon: the check precedes the inclusion, so the first value at
which the running total reaches or exceeds the horizon is still included, and
only later values are excluded. -/
theorem relevant_curvatures_window (times : List ℚ) (time_horizon : ℚ)
    (combined : List ℚ) (h : combined.length < times.length) :
    relevantCurvatures times time_horizon combined
      = ((List.range combined.length).takeWhile
          (fun i => decide (accTimeFrom times 0 i < time_horizon))).map
          (fun i => combined.getD i 0) := by
  rw [relevantCurvatures, relevantLoop_takeWhile times time_horizon combined 0 0 (by omega)]
  have hpred : (fun k => decide ((0 : ℚ) + accTimeFrom times 0 k < time_horizon))
      = fun k => decide (accTimeFrom times 0 k < time_horizon) := by
    funext k
    rw [zero_add]
  rw [hpred]

/-- Witness for C2 with `times = [0, 1, 2, 3]`, `horizon = 3/2`,
`combined = [10, 20, 30]`: the loop keeps the first two values (accumulated
times 0 and 1 on entry) and drops the third (accumulated time 2 ≥ 3/2). -/
theorem relevant_curvatures_window_witness :
    ([(10 : ℚ), 20, 30].length < [(0 : ℚ), 1, 2, 3].length) ∧
    relevantCurvatures [0, 1, 2, 3] (3 / 2) [10, 20, 30]
      = ((List.range ([(10 : ℚ), 20, 30].length)).takeWhile
          (fun i => decide (accTimeFrom [0, 1, 2, 3] 0 i < 3 / 2))).map
          (fun i => [(10 : ℚ), 20, 30].getD i 0) :=
  ⟨by norm_num, relevant_curvatures_window [0, 1, 2, 3] (3 / 2) [10, 20, 30] (by norm_num)⟩
